import Mathlib

/-
Verification development for the Luxe Heritage storefront backend.

The order, cart and wishlist route handlers are embedded from
backend/routes/order.routes.js and backend/routes/cart.routes.js.
Monetary values are modelled as exact rationals and document ids as
naturals.  The mongoose model files (backend/models/Cart.js, Order.js,
Product.js, Wishlist.js) are not part of the source tree given here, so
the model methods the routes call (addItem, validateStock, clear,
updateStock, canBeCancelled, updateStatus, moveToCart, ...) are modelled
from the specification; every such definition carries a doc comment
starting with the words Modelled from the spec.
-/

/-- Product status enum, from the Product select fields and the
active-status check in cart.routes.js. -/
inductive ProductStatus
  | active
  | draft
  | archived
deriving DecidableEq, Repr

/-- Inventory subdocument of a product: quantity, trackQuantity and
allowBackorders, as selected by the routes. -/
structure Inventory where
  quantity : Int
  trackQuantity : Bool
  allowBackorders : Bool
deriving DecidableEq, Repr

/-- Product fields read by the order and cart routes. -/
structure Product where
  name : String
  price : ℚ
  images : List String
  status : ProductStatus
  inventory : Inventory
deriving DecidableEq, Repr

/-- The catalog store: a map from product id to product document. -/
def Catalog : Type := Nat → Option Product

/-- A product variant: size and color sub-selection with an optional
price adjustment, read via item.variant.priceAdjustment in
order.routes.js. -/
structure Variant where
  size : Option String
  color : Option String
  priceAdjustment : Option ℚ
deriving DecidableEq, Repr

/-- A cart line item: product reference, quantity and chosen variant. -/
structure CartItem where
  product : Nat
  quantity : Nat
  variant : Option Variant
deriving DecidableEq, Repr

/-- Coupon type enum, from the coupon validator in cart.routes.js. -/
inductive CouponType
  | percentage
  | fixed
deriving DecidableEq, Repr

/-- Coupon descriptor stored on the cart. -/
structure Coupon where
  code : String
  discount : ℚ
  type : CouponType
deriving DecidableEq, Repr

/-- Shipping method enum, from the shipping validator in
cart.routes.js. -/
inductive ShippingMethod
  | standard
  | express
  | overnight
deriving DecidableEq, Repr

/-- The cart aggregate: one per user, with items, optional coupon and a
shipping method. -/
structure Cart where
  user : Nat
  items : List CartItem
  coupon : Option Coupon
  shippingMethod : ShippingMethod
deriving DecidableEq, Repr

/-- Modelled from the spec: the Cart model file is absent from src;
carts are created lazily with no items, no coupon and the default
shipping method. -/
def Cart.mkEmpty (u : Nat) : Cart :=
  { user := u, items := [], coupon := none, shippingMethod := .standard }

/-- Modelled from the spec: helper for Cart.addItem, which is defined in
the absent Cart model file.  If an item with the same product and
variant exists its quantity is incremented, otherwise a new item is
appended. -/
def Cart.addItemAux (productId quantity : Nat) (variant : Option Variant) :
    List CartItem → List CartItem
  | [] => [{ product := productId, quantity := quantity, variant := variant }]
  | i :: rest =>
    if i.product = productId ∧ i.variant = variant then
      { i with quantity := i.quantity + quantity } :: rest
    else
      i :: Cart.addItemAux productId quantity variant rest

/-- Modelled from the spec: Cart.addItem from the absent Cart model
file.  Increments the quantity of an existing item with the same
product and variant, else appends a new item; no side effect on
stock. -/
def Cart.addItem (c : Cart) (productId quantity : Nat) (variant : Option Variant) : Cart :=
  { c with items := Cart.addItemAux productId quantity variant c.items }

/-- Modelled from the spec: Cart.removeItem from the absent Cart model
file.  Removes the matching item and is a no-op when absent. -/
def Cart.removeItem (c : Cart) (productId : Nat) (variant : Option Variant) : Cart :=
  { c with items := c.items.filter (fun i => ¬(i.product = productId ∧ i.variant = variant)) }

/-- Modelled from the spec: Cart.updateQuantity from the absent Cart
model file.  Quantity zero removes the item, otherwise the quantity of
the matching item is replaced; silently a no-op when the item does not
exist. -/
def Cart.updateQuantity (c : Cart) (productId quantity : Nat) (variant : Option Variant) : Cart :=
  if quantity = 0 then
    c.removeItem productId variant
  else
    { c with items := c.items.map (fun i =>
        if i.product = productId ∧ i.variant = variant then
          { i with quantity := quantity }
        else i) }

/-- Modelled from the spec: Cart.applyCoupon from the absent Cart model
file.  Stores the coupon descriptor verbatim. -/
def Cart.applyCoupon (c : Cart) (code : String) (discount : ℚ) (t : CouponType) : Cart :=
  { c with coupon := some { code := code, discount := discount, type := t } }

/-- Modelled from the spec: Cart.removeCoupon from the absent Cart model
file. -/
def Cart.removeCoupon (c : Cart) : Cart :=
  { c with coupon := none }

/-- Modelled from the spec: Cart.getItemCount from the absent Cart model
file; the sum of the item quantities. -/
def Cart.getItemCount (c : Cart) : Nat :=
  c.items.foldl (fun acc i => acc + i.quantity) 0

/-- Modelled from the spec: Cart.clear from the absent Cart model file.
Empties the items and removes the coupon; the cart document itself is
kept. -/
def Cart.clear (c : Cart) : Cart :=
  { c with items := [], coupon := none }

/-- A stock issue reported by validateStock for one offending item. -/
structure StockIssue where
  productId : Nat
  reason : String
deriving DecidableEq, Repr

/-- The result of validateStock. -/
structure StockValidation where
  isValid : Bool
  issues : List StockIssue
deriving DecidableEq, Repr

/-- Modelled from the spec: the per-item check inside
Cart.validateStock from the absent Cart model file.  An item is flagged
when its product is missing or not active, or when the product tracks
quantity, disallows backorders, and has less stock than the requested
quantity. -/
def stockIssueFor (catalog : Catalog) (item : CartItem) : Option StockIssue :=
  match catalog item.product with
  | none => some { productId := item.product, reason := "Product is no longer available" }
  | some p =>
    if p.status ≠ ProductStatus.active then
      some { productId := item.product, reason := "Product is no longer available" }
    else if p.inventory.trackQuantity = true ∧ p.inventory.allowBackorders = false ∧
        p.inventory.quantity < (item.quantity : Int) then
      some { productId := item.product, reason := "Insufficient stock" }
    else
      none

/-- Modelled from the spec: Cart.validateStock from the absent Cart
model file.  A pure read-side check returning the issue list; valid
exactly when no item is flagged. -/
def Cart.validateStock (c : Cart) (catalog : Catalog) : StockValidation :=
  { isValid := (c.items.filterMap (stockIssueFor catalog)).isEmpty
    issues := c.items.filterMap (stockIssueFor catalog) }

/-- Order line item snapshot created by checkout, from the orderItems
map in order.routes.js. -/
structure OrderItem where
  product : Nat
  name : String
  image : String
  price : ℚ
  quantity : Nat
  variant : Option Variant
  totalPrice : ℚ
deriving DecidableEq, Repr

/-- Order status values of the lifecycle. -/
inductive OrderStatus
  | pending
  | confirmed
  | processing
  | shipped
  | delivered
  | cancelled
  | returned
deriving DecidableEq, Repr

/-- Order fields computed by the checkout route. -/
structure Order where
  user : Nat
  items : List OrderItem
  shippingMethod : String
  subtotal : ℚ
  tax : ℚ
  shippingCost : ℚ
  discount : ℚ
  total : ℚ
  status : OrderStatus
deriving DecidableEq, Repr

/-- Direction argument of Product.updateStock. -/
inductive StockDirection
  | increase
  | decrease
deriving DecidableEq, Repr

/-- Modelled from the spec: Product.updateStock from the absent Product
model file; mutates inventory.quantity by plus or minus the amount with
no bound enforcement. -/
def Product.updateStock (p : Product) (amount : Int) (d : StockDirection) : Product :=
  match d with
  | .increase => { p with inventory := { p.inventory with quantity := p.inventory.quantity + amount } }
  | .decrease => { p with inventory := { p.inventory with quantity := p.inventory.quantity - amount } }

/-- The shipping rate table of order.routes.js: standard, express and
overnight rates. -/
def shippingRates (m : String) : Option ℚ :=
  if m = "standard" then some (599/100)
  else if m = "express" then some (1299/100)
  else if m = "overnight" then some (2499/100)
  else none

/-- String form of a shipping method, matching the rate table keys. -/
def methodString : ShippingMethod → String
  | .standard => "standard"
  | .express => "express"
  | .overnight => "overnight"

/-- The shipping method used by checkout: the request value when
present, else the cart value (the JS expression shippingMethod or
cart.shippingMethod). -/
def effectiveShippingMethod (cart : Cart) (reqShippingMethod : Option String) : String :=
  reqShippingMethod.getD (methodString cart.shippingMethod)

/-- Shipping cost computed by checkout: the rate table lookup with the
5.99 fallback of order.routes.js. -/
def checkoutShippingCost (cart : Cart) (reqShippingMethod : Option String) : ℚ :=
  (shippingRates (effectiveShippingMethod cart reqShippingMethod)).getD (599/100)

/-- One order item built by the orderItems map in order.routes.js:
captured name, first image, price, quantity, variant, and the line
total price plus variant adjustment times quantity. -/
def mkOrderItem (p : Product) (item : CartItem) : OrderItem :=
  { product := item.product
    name := p.name
    image := p.images.head?.getD ""
    price := p.price
    quantity := item.quantity
    variant := item.variant
    totalPrice := (p.price + (item.variant.bind Variant.priceAdjustment).getD 0) * item.quantity }

/-- The orderItems construction of order.routes.js: every cart item is
snapshotted against its populated product; a missing product makes the
handler throw, modelled as none. -/
def buildOrderItems (catalog : Catalog) : List CartItem → Option (List OrderItem)
  | [] => some []
  | item :: rest =>
    match catalog item.product with
    | none => none
    | some p => (buildOrderItems catalog rest).map (fun tl => mkOrderItem p item :: tl)

/-- The subtotal reduction of order.routes.js: the sum of the order
item line totals. -/
def checkoutSubtotal (orderItems : List OrderItem) : ℚ :=
  orderItems.foldl (fun t i => t + i.totalPrice) 0

/-- The coupon discount computation of order.routes.js: percentage of
subtotal, flat amount, or zero without a coupon. -/
def checkoutDiscount (coupon : Option Coupon) (subtotal : ℚ) : ℚ :=
  match coupon with
  | none => 0
  | some cp =>
    match cp.type with
    | .percentage => subtotal * cp.discount / 100
    | .fixed => cp.discount

/-- The order document created by the checkout route, with the totals
computed exactly as in order.routes.js; the initial status pending is
modelled from the spec lifecycle since the Order model file is absent
from src. -/
def checkoutOrder (cart : Cart) (reqShippingMethod : Option String)
    (orderItems : List OrderItem) : Order :=
  { user := cart.user
    items := orderItems
    shippingMethod := effectiveShippingMethod cart reqShippingMethod
    subtotal := checkoutSubtotal orderItems
    tax := checkoutSubtotal orderItems * (8/100)
    shippingCost := checkoutShippingCost cart reqShippingMethod
    discount := checkoutDiscount cart.coupon (checkoutSubtotal orderItems)
    total := checkoutSubtotal orderItems + checkoutSubtotal orderItems * (8/100)
      + checkoutShippingCost cart reqShippingMethod
      - checkoutDiscount cart.coupon (checkoutSubtotal orderItems)
    status := .pending }

/-- One step of the inventory update loop of the checkout route: fetch
the product and, when it exists and tracks quantity, decrement its
stock by the purchased amount. -/
def decrementStock (catalog : Catalog) (item : CartItem) : Catalog :=
  match catalog item.product with
  | none => catalog
  | some p =>
    if p.inventory.trackQuantity then
      fun pid =>
        if pid = item.product then some (p.updateStock item.quantity .decrease)
        else catalog pid
    else catalog

/-- One step of the inventory restoration loop of the cancel route:
fetch the product and, when it exists and tracks quantity, increment
its stock by the ordered amount. -/
def incrementStock (catalog : Catalog) (item : OrderItem) : Catalog :=
  match catalog item.product with
  | none => catalog
  | some p =>
    if p.inventory.trackQuantity then
      fun pid =>
        if pid = item.product then some (p.updateStock item.quantity .increase)
        else catalog pid
    else catalog

/-- The observable outcome of the checkout route: response status, the
created order if any, the reported stock issues, and the post-state of
the cart and the catalog. -/
structure CheckoutResult where
  status : Nat
  order : Option Order
  issues : List StockIssue
  cart : Option Cart
  catalog : Catalog

/-- The success branch of the checkout route: a 201 response carrying
the created order, the cleared cart, and the catalog after the
per-item stock decrement loop. -/
def successCheckout (cart : Cart) (catalog : Catalog) (reqShippingMethod : Option String)
    (orderItems : List OrderItem) : CheckoutResult :=
  { status := 201
    order := some (checkoutOrder cart reqShippingMethod orderItems)
    issues := []
    cart := some cart.clear
    catalog := cart.items.foldl decrementStock catalog }

/-- The POST /api/orders handler of order.routes.js: reject a missing
or empty cart with 400, reject an invalid stock validation with 400 and
the issue list, then create the order, decrement stock and clear the
cart. -/
def checkout (cartDoc : Option Cart) (catalog : Catalog)
    (reqShippingMethod : Option String) : CheckoutResult :=
  match cartDoc with
  | none => { status := 400, order := none, issues := [], cart := none, catalog := catalog }
  | some cart =>
    if cart.items = [] then
      { status := 400, order := none, issues := [], cart := some cart, catalog := catalog }
    else if (cart.validateStock catalog).isValid = false then
      { status := 400, order := none, issues := (cart.validateStock catalog).issues
        cart := some cart, catalog := catalog }
    else
      match buildOrderItems catalog cart.items with
      | none =>
        { status := 500, order := none, issues := [], cart := some cart, catalog := catalog }
      | some orderItems => successCheckout cart catalog reqShippingMethod orderItems

/-- Modelled from the spec: Order.canBeCancelled from the absent Order
model file; true exactly for the pending, confirmed and processing
statuses. -/
def Order.canBeCancelled (o : Order) : Bool :=
  match o.status with
  | .pending => true
  | .confirmed => true
  | .processing => true
  | _ => false

/-- Modelled from the spec: Order.updateStatus from the absent Order
model file; sets the status field with no transition-table
enforcement. -/
def Order.updateStatus (o : Order) (st : OrderStatus) : Order :=
  { o with status := st }

/-- The observable outcome of the cancel route: response status and the
post-state of the order and the catalog. -/
structure CancelResult where
  status : Nat
  order : Order
  catalog : Catalog

/-- The PUT /api/orders/:id/cancel handler of order.routes.js: reject
with 400 when the order cannot be cancelled, else set the status to
cancelled and run the inventory restoration loop. -/
def cancelOrderRoute (o : Order) (catalog : Catalog) : CancelResult :=
  if o.canBeCancelled then
    { status := 200
      order := o.updateStatus .cancelled
      catalog := o.items.foldl incrementStock catalog }
  else
    { status := 400, order := o, catalog := catalog }

/-- The status values enumerated by the isIn validator of the
PUT /api/orders/:id/status route in order.routes.js. -/
def orderStatusValues : List String :=
  ["pending", "confirmed", "processing", "shipped", "delivered", "cancelled", "returned"]

/-- Parse a status string into the lifecycle enum. -/
def parseStatus (s : String) : Option OrderStatus :=
  if s = "pending" then some .pending
  else if s = "confirmed" then some .confirmed
  else if s = "processing" then some .processing
  else if s = "shipped" then some .shipped
  else if s = "delivered" then some .delivered
  else if s = "cancelled" then some .cancelled
  else if s = "returned" then some .returned
  else none

/-- The observable outcome of the status-update route. -/
structure StatusUpdateResult where
  status : Nat
  order : Order
deriving DecidableEq, Repr

/-- The PUT /api/orders/:id/status handler of order.routes.js: the isIn
validator rejects any value outside the enumerated list with a 400
validation error before the handler runs; otherwise updateStatus is
applied unconditionally. -/
def updateStatusRoute (o : Order) (newStatus : String) : StatusUpdateResult :=
  if newStatus ∈ orderStatusValues then
    { status := 200, order := o.updateStatus ((parseStatus newStatus).getD o.status) }
  else
    { status := 400, order := o }

/-- The observable outcome of a cart route: response status and cart
post-state. -/
structure CartRouteResult where
  status : Nat
  cart : Option Cart
deriving DecidableEq, Repr

/-- The POST /api/cart/items handler of cart.routes.js: 404 for a
missing product, 400 for a product that is not active, else add the
item to the (lazily created) cart. -/
def addItemRoute (catalog : Catalog) (cartDoc : Option Cart) (userId productId quantity : Nat)
    (variant : Option Variant) : CartRouteResult :=
  match catalog productId with
  | none => { status := 404, cart := cartDoc }
  | some p =>
    if p.status ≠ ProductStatus.active then
      { status := 400, cart := cartDoc }
    else
      { status := 201
        cart := some ((cartDoc.getD (Cart.mkEmpty userId)).addItem productId quantity variant) }

/-- The PUT /api/cart/items/:productId handler of cart.routes.js: 404
when no cart document exists. -/
def updateQuantityRoute (cartDoc : Option Cart) (productId quantity : Nat)
    (variant : Option Variant) : CartRouteResult :=
  match cartDoc with
  | none => { status := 404, cart := none }
  | some c => { status := 200, cart := some (c.updateQuantity productId quantity variant) }

/-- The DELETE /api/cart/items/:productId handler of cart.routes.js:
404 when no cart document exists. -/
def removeItemRoute (cartDoc : Option Cart) (productId : Nat)
    (variant : Option Variant) : CartRouteResult :=
  match cartDoc with
  | none => { status := 404, cart := none }
  | some c => { status := 200, cart := some (c.removeItem productId variant) }

/-- The DELETE /api/cart handler of cart.routes.js: 404 when no cart
document exists. -/
def clearCartRoute (cartDoc : Option Cart) : CartRouteResult :=
  match cartDoc with
  | none => { status := 404, cart := none }
  | some c => { status := 200, cart := some c.clear }

/-- The POST /api/cart/coupon handler of cart.routes.js: 404 when no
cart document exists. -/
def applyCouponRoute (cartDoc : Option Cart) (code : String) (discount : ℚ)
    (t : CouponType) : CartRouteResult :=
  match cartDoc with
  | none => { status := 404, cart := none }
  | some c => { status := 200, cart := some (c.applyCoupon code discount t) }

/-- The DELETE /api/cart/coupon handler of cart.routes.js: 404 when no
cart document exists. -/
def removeCouponRoute (cartDoc : Option Cart) : CartRouteResult :=
  match cartDoc with
  | none => { status := 404, cart := none }
  | some c => { status := 200, cart := some c.removeCoupon }

/-- The PUT /api/cart/shipping handler of cart.routes.js: 404 when no
cart document exists. -/
def updateShippingRoute (cartDoc : Option Cart) (m : ShippingMethod) : CartRouteResult :=
  match cartDoc with
  | none => { status := 404, cart := none }
  | some c => { status := 200, cart := some { c with shippingMethod := m } }

/-- The observable outcome of the cart validate route. -/
structure ValidateRouteResult where
  status : Nat
  validation : Option StockValidation
deriving DecidableEq, Repr

/-- The GET /api/cart/validate handler of cart.routes.js: 404 when no
cart document exists, else the validateStock result. -/
def validateStockRoute (cartDoc : Option Cart) (catalog : Catalog) : ValidateRouteResult :=
  match cartDoc with
  | none => { status := 404, validation := none }
  | some c => { status := 200, validation := some (c.validateStock catalog) }

/-- The observable outcome of the cart count route. -/
structure CountResult where
  status : Nat
  count : Nat
deriving DecidableEq, Repr

/-- The GET /api/cart/count handler of cart.routes.js: a missing cart
yields a 200 response with count zero, not a 404. -/
def countRoute (cartDoc : Option Cart) : CountResult :=
  match cartDoc with
  | none => { status := 200, count := 0 }
  | some c => { status := 200, count := c.getItemCount }

/-- Wishlist item priority enum. -/
inductive Priority
  | low
  | medium
  | high
deriving DecidableEq, Repr

/-- A wishlist item: product reference with notes, priority and the
variant read by the move-to-cart route (cart.routes.js reads
item.variant when no variant comes with the request). -/
structure WishlistItem where
  product : Nat
  notes : String
  priority : Priority
  variant : Option Variant
deriving DecidableEq, Repr

/-- The wishlist aggregate: one per user. -/
structure Wishlist where
  user : Nat
  items : List WishlistItem
deriving DecidableEq, Repr

/-- Modelled from the spec: Wishlist.moveToCart from the absent
Wishlist model file; removes the matching item and returns its data for
the route to insert into the cart, returning none when the product is
not in the wishlist. -/
def Wishlist.moveToCart (w : Wishlist) (productId : Nat) :
    Option WishlistItem × Wishlist :=
  match w.items.find? (fun i => i.product = productId) with
  | none => (none, w)
  | some item =>
    (some item, { w with items := w.items.filter (fun i => ¬ i.product = productId) })

/-- The observable outcome of the move-to-cart route: response status
and the post-state of the wishlist and the cart. -/
structure MoveToCartResult where
  status : Nat
  wishlist : Option Wishlist
  cart : Option Cart
deriving DecidableEq, Repr

/-- The POST /api/wishlist/move-to-cart/:productId handler of
cart.routes.js: 404 for a missing wishlist or a product not in the
wishlist; otherwise the item is moved out of the wishlist and added to
the (lazily created) cart with the requested quantity defaulting to 1
and the request variant falling back to the item variant. -/
def moveToCartRoute (wishlistDoc : Option Wishlist) (cartDoc : Option Cart)
    (userId productId : Nat) (quantity : Option Nat)
    (variant : Option Variant) : MoveToCartResult :=
  match wishlistDoc with
  | none => { status := 404, wishlist := none, cart := cartDoc }
  | some w =>
    match w.moveToCart productId with
    | (none, _) => { status := 404, wishlist := some w, cart := cartDoc }
    | (some item, w1) =>
      { status := 200
        wishlist := some w1
        cart := some ((cartDoc.getD (Cart.mkEmpty userId)).addItem productId
          (quantity.getD 1)
          (match variant with
           | some v => some v
           | none => item.variant)) }

/-- Modelled from the spec: rounding a monetary amount to two decimal
places, stated from the spec wording of the tax formula so it can be
compared against the route computation. -/
def specRound2 (q : ℚ) : ℚ := (round (q * 100) : ℤ) / 100

/-- Total quantity of a given product across a list of cart items. -/
def cartQty (pid : Nat) : List CartItem → Int
  | [] => 0
  | i :: rest => (if i.product = pid then (i.quantity : Int) else 0) + cartQty pid rest

/-- Total quantity of a given product across a list of order items. -/
def orderQty (pid : Nat) : List OrderItem → Int
  | [] => 0
  | i :: rest => (if i.product = pid then (i.quantity : Int) else 0) + orderQty pid rest

/-- Adjust a looked-up product by a signed stock delta when it tracks
quantity, leaving untracked and missing products unchanged. -/
def adjustTracked (delta : Int) : Option Product → Option Product
  | none => none
  | some p =>
    if p.inventory.trackQuantity then
      some { p with inventory := { p.inventory with quantity := p.inventory.quantity + delta } }
    else some p

/-- Concrete inputs for the claim C1 evaluation: a cart requesting five
units of a tracked, no-backorder product holding two. -/
def w1cart : Cart :=
  { user := 1, items := [{ product := 1, quantity := 5, variant := none }],
    coupon := none, shippingMethod := .standard }

/-- Concrete catalog for the claim C1 evaluation. -/
def w1catalog : Catalog := fun pid =>
  if pid = 1 then
    some { name := "Scarf", price := 40, images := [], status := .active,
           inventory := { quantity := 2, trackQuantity := true, allowBackorders := false } }
  else none

/-- Concrete cart for the claim C2 counterexample: one unit priced at
10.01 so that 8 percent tax has four decimal places. -/
def x2cart : Cart :=
  { user := 2, items := [{ product := 1, quantity := 1, variant := none }],
    coupon := none, shippingMethod := .standard }

/-- Concrete catalog for the claim C2 counterexample. -/
def x2catalog : Catalog := fun pid =>
  if pid = 1 then
    some { name := "Pin", price := 1001/100, images := [], status := .active,
           inventory := { quantity := 5, trackQuantity := true, allowBackorders := false } }
  else none

/-- Concrete cart for the claim C2 evaluation: the spec scenario of two
units at 100 with a ten percent coupon and standard shipping. -/
def w2cart : Cart :=
  { user := 3, items := [{ product := 1, quantity := 2, variant := none }],
    coupon := some { code := "SAVE10", discount := 10, type := .percentage },
    shippingMethod := .standard }

/-- Concrete catalog for the claim C2 evaluation. -/
def w2catalog : Catalog := fun pid =>
  if pid = 1 then
    some { name := "Bag", price := 100, images := [], status := .active,
           inventory := { quantity := 10, trackQuantity := true, allowBackorders := false } }
  else none

/-- Concrete cart for the claim C3 evaluation: one tracked and one
untracked product. -/
def w3cart : Cart :=
  { user := 4,
    items := [{ product := 1, quantity := 2, variant := none },
      { product := 2, quantity := 3, variant := none }],
    coupon := none, shippingMethod := .express }

/-- Concrete catalog for the claim C3 evaluation. -/
def w3catalog : Catalog := fun pid =>
  if pid = 1 then
    some { name := "Belt", price := 25, images := [], status := .active,
           inventory := { quantity := 6, trackQuantity := true, allowBackorders := false } }
  else if pid = 2 then
    some { name := "Card", price := 5, images := [], status := .active,
           inventory := { quantity := 9, trackQuantity := false, allowBackorders := false } }
  else none

/-- The order produced by the claim C3 evaluation checkout. -/
def w3order : Order :=
  checkoutOrder w3cart none ((buildOrderItems w3catalog w3cart.items).getD [])

/-- Concrete shipped order for the claim C4 evaluation. -/
def w4order : Order :=
  { user := 5, items := [], shippingMethod := "standard", subtotal := 0, tax := 0,
    shippingCost := 0, discount := 0, total := 0, status := .shipped }

/-- Concrete empty catalog for the claim C4 evaluation. -/
def w4catalog : Catalog := fun _ => none

/-- Concrete tracked product for the claim C5 evaluation. -/
def w5product : Product :=
  { name := "Hat", price := 15, images := [], status := .active,
    inventory := { quantity := 10, trackQuantity := true, allowBackorders := false } }

/-- Concrete cart for the claim C5 evaluation. -/
def w5cart : Cart :=
  { user := 6, items := [{ product := 1, quantity := 3, variant := none }],
    coupon := none, shippingMethod := .standard }

/-- Concrete catalog for the claim C5 evaluation. -/
def w5catalog : Catalog := fun pid => if pid = 1 then some w5product else none

/-- Concrete cart for the claim C6 evaluation, carrying a coupon that
must be unset by the post-checkout clear. -/
def w6cart : Cart :=
  { user := 7, items := [{ product := 1, quantity := 1, variant := none }],
    coupon := some { code := "FLAT5", discount := 5, type := .fixed },
    shippingMethod := .overnight }

/-- Concrete catalog for the claim C6 evaluation. -/
def w6catalog : Catalog := fun pid =>
  if pid = 1 then
    some { name := "Mug", price := 12, images := [], status := .active,
           inventory := { quantity := 4, trackQuantity := true, allowBackorders := false } }
  else none

/-- Concrete pending order for the claim C7 evaluation. -/
def w7order : Order :=
  { user := 8, items := [], shippingMethod := "standard", subtotal := 0, tax := 0,
    shippingCost := 0, discount := 0, total := 0, status := .pending }

/-- Concrete inactive product for the claim C8 evaluation. -/
def w8product : Product :=
  { name := "Old", price := 9, images := [], status := .draft,
    inventory := { quantity := 1, trackQuantity := true, allowBackorders := false } }

/-- Concrete catalog for the claim C8 evaluation: id 1 missing, id 2 a
draft product. -/
def w8catalog : Catalog := fun pid => if pid = 2 then some w8product else none

/-- Concrete variant for the claim C9 evaluation. -/
def w9variant : Variant := { size := some "M", color := none, priceAdjustment := some 2 }

/-- Concrete wishlist item for the claim C9 evaluation. -/
def w9item : WishlistItem :=
  { product := 5, notes := "gift", priority := .high, variant := some w9variant }

/-- Concrete wishlist containing the product for the claim C9
evaluation. -/
def w9wishlist : Wishlist := { user := 9, items := [w9item] }

/-- Concrete cart with no matching item for the claim C9 evaluation. -/
def w9cart : Cart :=
  { user := 9, items := [{ product := 7, quantity := 1, variant := none }],
    coupon := none, shippingMethod := .standard }

/-- Concrete empty wishlist for the 404 side of the claim C9
evaluation. -/
def w9wishlist2 : Wishlist := { user := 10, items := [] }

/-- Concrete variant with a price adjustment for the claim C10
evaluation. -/
def w10variant : Variant := { size := none, color := some "red", priceAdjustment := some (5/2) }

/-- Concrete cart for the claim C10 evaluation. -/
def w10cart : Cart :=
  { user := 11, items := [{ product := 1, quantity := 2, variant := some w10variant }],
    coupon := some { code := "TEN", discount := 10, type := .percentage },
    shippingMethod := .standard }

/-- Concrete catalog for the claim C10 evaluation. -/
def w10catalog : Catalog := fun pid =>
  if pid = 1 then
    some { name := "Tie", price := 20, images := ["a.jpg"], status := .active,
           inventory := { quantity := 8, trackQuantity := true, allowBackorders := false } }
  else none

theorem adjustTracked_zero (x : Option Product) : adjustTracked 0 x = x := by
  cases x with
  | none => rfl
  | some p =>
    show (if p.inventory.trackQuantity then
      some { p with inventory := { p.inventory with quantity := p.inventory.quantity + 0 } }
      else some p) = some p
    by_cases ht : p.inventory.trackQuantity
    · rw [if_pos ht, add_zero]
    · rw [if_neg ht]

theorem adjustTracked_comp (a b : Int) (x : Option Product) :
    adjustTracked b (adjustTracked a x) = adjustTracked (a + b) x := by
  cases x with
  | none => rfl
  | some p =>
    unfold adjustTracked
    by_cases ht : p.inventory.trackQuantity <;> simp [ht, add_assoc]

theorem decrementStock_apply (catalog : Catalog) (item : CartItem) (pid : Nat) :
    decrementStock catalog item pid
      = adjustTracked (-(if item.product = pid then (item.quantity : Int) else 0))
          (catalog pid) := by
  unfold decrementStock
  cases hc : catalog item.product with
  | none =>
    by_cases hp : item.product = pid
    · subst hp; simp [adjustTracked, hc]
    · simp [hp, adjustTracked_zero]
  | some p =>
    by_cases ht : p.inventory.trackQuantity
    · simp only [ht, if_true]
      by_cases hp : pid = item.product
      · subst hp
        simp [adjustTracked, ht, hc, Product.updateStock, sub_eq_add_neg]
      · have hp2 : ¬ item.product = pid := fun h => hp h.symm
        simp [hp, hp2, adjustTracked_zero]
    · simp only [ht, if_false]
      by_cases hp : item.product = pid
      · subst hp; simp [adjustTracked, ht, hc]
      · simp [hp, adjustTracked_zero]

theorem incrementStock_apply (catalog : Catalog) (item : OrderItem) (pid : Nat) :
    incrementStock catalog item pid
      = adjustTracked (if item.product = pid then (item.quantity : Int) else 0)
          (catalog pid) := by
  unfold incrementStock
  cases hc : catalog item.product with
  | none =>
    by_cases hp : item.product = pid
    · subst hp; simp [adjustTracked, hc]
    · simp [hp, adjustTracked_zero]
  | some p =>
    by_cases ht : p.inventory.trackQuantity
    · simp only [ht, if_true]
      by_cases hp : pid = item.product
      · subst hp
        simp [adjustTracked, ht, hc, Product.updateStock]
      · have hp2 : ¬ item.product = pid := fun h => hp h.symm
        simp [hp, hp2, adjustTracked_zero]
    · simp only [ht, if_false]
      by_cases hp : item.product = pid
      · subst hp; simp [adjustTracked, ht, hc]
      · simp [hp, adjustTracked_zero]

theorem foldl_decrementStock (items : List CartItem) :
    ∀ (catalog : Catalog) (pid : Nat),
      (items.foldl decrementStock catalog) pid
        = adjustTracked (-(cartQty pid items)) (catalog pid) := by
  induction items with
  | nil => intro catalog pid; simp [cartQty, adjustTracked_zero]
  | cons i rest ih =>
    intro catalog pid
    rw [List.foldl_cons, ih, decrementStock_apply, adjustTracked_comp]
    simp only [cartQty]
    rw [neg_add]

theorem foldl_incrementStock (items : List OrderItem) :
    ∀ (catalog : Catalog) (pid : Nat),
      (items.foldl incrementStock catalog) pid
        = adjustTracked (orderQty pid items) (catalog pid) := by
  induction items with
  | nil => intro catalog pid; simp [orderQty, adjustTracked_zero]
  | cons i rest ih =>
    intro catalog pid
    rw [List.foldl_cons, ih, incrementStock_apply, adjustTracked_comp]
    simp only [orderQty]

theorem buildOrderItems_qty (catalog : Catalog) :
    ∀ (items : List CartItem) (ois : List OrderItem),
      buildOrderItems catalog items = some ois →
      ∀ pid, orderQty pid ois = cartQty pid items := by
  intro items
  induction items with
  | nil =>
    intro ois h pid
    simp [buildOrderItems] at h
    subst h
    simp [orderQty, cartQty]
  | cons i rest ih =>
    intro ois h pid
    simp only [buildOrderItems] at h
    cases hc : catalog i.product with
    | none => rw [hc] at h; simp at h
    | some p =>
      rw [hc] at h
      cases hb : buildOrderItems catalog rest with
      | none => rw [hb] at h; simp at h
      | some tl =>
        rw [hb] at h
        simp at h
        subst h
        simp only [orderQty, cartQty, mkOrderItem]
        rw [ih tl hb pid]

theorem buildOrderItems_rel (catalog : Catalog) :
    ∀ (items : List CartItem) (ois : List OrderItem),
      buildOrderItems catalog items = some ois →
      List.Forall₂ (fun (ci : CartItem) (oi : OrderItem) =>
        ∃ p, catalog ci.product = some p ∧ oi.product = ci.product ∧
          oi.quantity = ci.quantity ∧ oi.variant = ci.variant ∧
          oi.price = p.price ∧
          oi.totalPrice = (p.price + (ci.variant.bind Variant.priceAdjustment).getD 0)
            * ci.quantity) items ois := by
  intro items
  induction items with
  | nil =>
    intro ois h
    simp [buildOrderItems] at h
    subst h
    exact List.Forall₂.nil
  | cons i rest ih =>
    intro ois h
    simp only [buildOrderItems] at h
    cases hc : catalog i.product with
    | none => rw [hc] at h; simp at h
    | some p =>
      rw [hc] at h
      cases hb : buildOrderItems catalog rest with
      | none => rw [hb] at h; simp at h
      | some tl =>
        rw [hb] at h
        simp at h
        subst h
        exact List.Forall₂.cons ⟨p, hc, rfl, rfl, rfl, rfl, rfl⟩ (ih tl hb)

theorem checkout_success_inv (cart : Cart) (catalog : Catalog) (m : Option String)
    (h : (checkout (some cart) catalog m).status = 201) :
    ∃ ois, buildOrderItems catalog cart.items = some ois ∧
      checkout (some cart) catalog m = successCheckout cart catalog m ois := by
  by_cases he : cart.items = []
  · simp [checkout, he] at h
  · by_cases hv : (cart.validateStock catalog).isValid = false
    · simp [checkout, he, hv] at h
    · cases hb : buildOrderItems catalog cart.items with
      | none => simp [checkout, he, hv, hb] at h
      | some ois => exact ⟨ois, rfl, by simp [checkout, he, hv, hb]⟩

theorem checkout_eq_success (cart : Cart) (catalog : Catalog) (m : Option String)
    (ois : List OrderItem)
    (he : cart.items ≠ [])
    (hv : (cart.validateStock catalog).isValid ≠ false)
    (hb : buildOrderItems catalog cart.items = some ois) :
    checkout (some cart) catalog m = successCheckout cart catalog m ois := by
  simp [checkout, he, hv, hb]

theorem mem_of_parseStatus (s : String) (st : OrderStatus)
    (h : parseStatus s = some st) : s ∈ orderStatusValues := by
  unfold parseStatus at h
  split_ifs at h with h1 h2 h3 h4 h5 h6 h7 <;> simp_all [orderStatusValues]

theorem addItemAux_of_no_match (productId quantity : Nat) (variant : Option Variant) :
    ∀ (items : List CartItem),
      (∀ i ∈ items, ¬(i.product = productId ∧ i.variant = variant)) →
      Cart.addItemAux productId quantity variant items
        = items ++ [{ product := productId, quantity := quantity, variant := variant }] := by
  intro items
  induction items with
  | nil => intro _; rfl
  | cons i rest ih =>
    intro h
    have hi : ¬(i.product = productId ∧ i.variant = variant) := h i (by simp)
    simp only [Cart.addItemAux, if_neg hi, List.cons_append, List.cons.injEq, true_and]
    exact ih (fun j hj => h j (List.mem_cons_of_mem i hj))

/-- Claim C1: for every checkout request, if the cart is empty or the
pre-checkout stock validation reports invalid, then checkout fails with
a 400 error, no order document is persisted, no stock quantity is
changed, and the cart is left untouched. -/
theorem checkout_aborts_on_empty_or_invalid_stock (cart : Cart) (catalog : Catalog)
    (m : Option String)
    (h : cart.items = [] ∨ (cart.validateStock catalog).isValid = false) :
    (checkout (some cart) catalog m).status = 400 ∧
    (checkout (some cart) catalog m).order = none ∧
    (checkout (some cart) catalog m).catalog = catalog ∧
    (checkout (some cart) catalog m).cart = some cart := by
  rcases h with he | hv
  · simp [checkout, he]
  · by_cases he : cart.items = []
    · simp [checkout, he]
    · simp [checkout, he, hv]

/-- Claim C1 witness: a cart asking five units of a product with two in
stock is rejected by validateStock and checkout aborts on it. -/
theorem checkout_aborts_on_empty_or_invalid_stock_witness :
    (w1cart.validateStock w1catalog).isValid = false ∧
    (checkout (some w1cart) w1catalog none).status = 400 ∧
    (checkout (some w1cart) w1catalog none).order = none := by
  refine ⟨by decide, ?_, ?_⟩
  · exact (checkout_aborts_on_empty_or_invalid_stock w1cart w1catalog none
      (Or.inr (by decide))).1
  · exact (checkout_aborts_on_empty_or_invalid_stock w1cart w1catalog none
      (Or.inr (by decide))).2.1

/-- Claim C2 counterexample: the route computes tax as subtotal times
0.08 with no rounding, so for a one-item cart priced 10.01 the stored
tax is 0.8008 while the claim prescribes the two-decimal rounding
0.80. -/
theorem checkout_tax_not_rounded_counterexample :
    (checkout (some x2cart) x2catalog none).order.map Order.tax = some (1001/1250) ∧
    (checkout (some x2cart) x2catalog none).order.map
      (fun o => specRound2 (o.subtotal * (8/100))) = some (4/5) ∧
    ¬ (checkout (some x2cart) x2catalog none).order.map Order.tax
        = (checkout (some x2cart) x2catalog none).order.map
            (fun o => specRound2 (o.subtotal * (8/100))) := by
  refine ⟨?_, ?_, ?_⟩ <;>
    norm_num [checkout, x2cart, x2catalog, Cart.validateStock, stockIssueFor, buildOrderItems,
      mkOrderItem, successCheckout, checkoutOrder, checkoutSubtotal, checkoutShippingCost,
      effectiveShippingMethod, methodString, shippingRates, checkoutDiscount, specRound2,
      round_eq]

/-- Claim C2 as amended: for every order created by checkout, total
equals subtotal plus tax plus shippingCost minus discount, tax equals
subtotal times 0.08 exactly with no rounding applied, shippingCost is
looked up from the fixed table standard 5.99, express 12.99, overnight
24.99, and discount is subtotal times coupon.discount over 100 for a
percentage coupon, the flat coupon.discount for a fixed coupon, and 0
with no coupon. -/
theorem checkout_totals_formula (cart : Cart) (catalog : Catalog) (m : Option String)
    (h : (checkout (some cart) catalog m).status = 201) :
    ∃ o, (checkout (some cart) catalog m).order = some o ∧
      o.total = o.subtotal + o.tax + o.shippingCost - o.discount ∧
      o.tax = o.subtotal * (8/100) ∧
      (effectiveShippingMethod cart m = "standard" → o.shippingCost = 599/100) ∧
      (effectiveShippingMethod cart m = "express" → o.shippingCost = 1299/100) ∧
      (effectiveShippingMethod cart m = "overnight" → o.shippingCost = 2499/100) ∧
      (cart.coupon = none → o.discount = 0) ∧
      (∀ cp, cart.coupon = some cp → cp.type = CouponType.percentage →
        o.discount = o.subtotal * cp.discount / 100) ∧
      (∀ cp, cart.coupon = some cp → cp.type = CouponType.fixed →
        o.discount = cp.discount) := by
  obtain ⟨ois, hb, heq⟩ := checkout_success_inv cart catalog m h
  rw [heq]
  refine ⟨checkoutOrder cart m ois, rfl, rfl, rfl, ?_, ?_, ?_, ?_, ?_, ?_⟩
  · intro hs; simp [checkoutOrder, checkoutShippingCost, hs, shippingRates]
  · intro hs; simp [checkoutOrder, checkoutShippingCost, hs, shippingRates]
  · intro hs; simp [checkoutOrder, checkoutShippingCost, hs, shippingRates]
  · intro hc; simp [checkoutOrder, checkoutDiscount, hc]
  · intro cp hc ht; simp [checkoutOrder, checkoutDiscount, hc, ht]
  · intro cp hc ht; simp [checkoutOrder, checkoutDiscount, hc, ht]

/-- Claim C2 witness: the spec scenario of two units at 100 with a ten
percent coupon and standard shipping checks out at 201 with total
201.99, and the totals formula instantiates on it. -/
theorem checkout_totals_formula_witness :
    (checkout (some w2cart) w2catalog none).status = 201 ∧
    (checkout (some w2cart) w2catalog none).order.map Order.total = some (20199/100) ∧
    ∃ o, (checkout (some w2cart) w2catalog none).order = some o ∧
      o.total = o.subtotal + o.tax + o.shippingCost - o.discount ∧
      o.tax = o.subtotal * (8/100) := by
  have h201 : (checkout (some w2cart) w2catalog none).status = 201 := by decide
  obtain ⟨o, ho, htot, htax, _⟩ := checkout_totals_formula w2cart w2catalog none h201
  refine ⟨h201, ?_, o, ho, htot, htax⟩
  norm_num [checkout, w2cart, w2catalog, Cart.validateStock, stockIssueFor, buildOrderItems,
    mkOrderItem, successCheckout, checkoutOrder, checkoutSubtotal, checkoutShippingCost,
    effectiveShippingMethod, methodString, shippingRates, checkoutDiscount]

/-- Claim C3: a successful cancellation increments each ordered
product by the ordered quantity exactly for tracked products (the
adjustTracked form leaves untracked and missing products unchanged),
and cancelling immediately after checkout restores every catalog entry
to its pre-checkout state. -/
theorem cancel_restores_checkout_stock (cart : Cart) (catalog : Catalog) (m : Option String)
    (o : Order)
    (h : (checkout (some cart) catalog m).status = 201)
    (ho : (checkout (some cart) catalog m).order = some o) :
    (cancelOrderRoute o ((checkout (some cart) catalog m).catalog)).status = 200 ∧
    (∀ pid, (cancelOrderRoute o ((checkout (some cart) catalog m).catalog)).catalog pid
        = adjustTracked (orderQty pid o.items) ((checkout (some cart) catalog m).catalog pid)) ∧
    (∀ pid, (cancelOrderRoute o ((checkout (some cart) catalog m).catalog)).catalog pid
        = catalog pid) := by
  obtain ⟨ois, hb, heq⟩ := checkout_success_inv cart catalog m h
  rw [heq] at ho ⊢
  simp only [successCheckout, Option.some.injEq] at ho
  subst ho
  have hcan : (checkoutOrder cart m ois).canBeCancelled = true := by
    simp [Order.canBeCancelled, checkoutOrder]
  refine ⟨?_, ?_, ?_⟩
  · simp [cancelOrderRoute, hcan]
  · intro pid
    simp only [cancelOrderRoute, hcan, if_true, successCheckout]
    rw [foldl_incrementStock]
  · intro pid
    simp only [cancelOrderRoute, hcan, if_true, successCheckout]
    rw [foldl_incrementStock, foldl_decrementStock, adjustTracked_comp]
    have hq : orderQty pid (checkoutOrder cart m ois).items = cartQty pid cart.items :=
      buildOrderItems_qty catalog cart.items ois hb pid
    rw [hq, neg_add_cancel, adjustTracked_zero]

/-- Claim C3 witness: a two-item checkout against one tracked and one
untracked product cancels back to the original catalog at both
product ids. -/
theorem cancel_restores_checkout_stock_witness :
    (checkout (some w3cart) w3catalog none).status = 201 ∧
    (checkout (some w3cart) w3catalog none).order = some w3order ∧
    (cancelOrderRoute w3order ((checkout (some w3cart) w3catalog none).catalog)).status = 200 ∧
    (cancelOrderRoute w3order ((checkout (some w3cart) w3catalog none).catalog)).catalog 1
      = w3catalog 1 ∧
    (cancelOrderRoute w3order ((checkout (some w3cart) w3catalog none).catalog)).catalog 2
      = w3catalog 2 := by
  have h1 : (checkout (some w3cart) w3catalog none).status = 201 := by decide
  have h2 : (checkout (some w3cart) w3catalog none).order = some w3order := by
    norm_num +decide [checkout, w3cart, w3catalog, w3order, Cart.validateStock, stockIssueFor,
      buildOrderItems, mkOrderItem, successCheckout, checkoutOrder, checkoutSubtotal,
      checkoutShippingCost, effectiveShippingMethod, methodString, shippingRates,
      checkoutDiscount]
  have h := cancel_restores_checkout_stock w3cart w3catalog none w3order h1 h2
  exact ⟨h1, h2, h.1, h.2.2 1, h.2.2 2⟩

/-- Claim C4: canBeCancelled holds exactly for the pending, confirmed
and processing statuses, and a cancel request against a shipped,
delivered, cancelled or returned order fails with a 400 business-rule
error leaving the order status and every product stock unchanged. -/
theorem canBeCancelled_iff_and_cancel_guard (o : Order) (catalog : Catalog)
    (h : o.status = OrderStatus.shipped ∨ o.status = OrderStatus.delivered ∨
      o.status = OrderStatus.cancelled ∨ o.status = OrderStatus.returned) :
    (∀ o2 : Order, o2.canBeCancelled = true ↔
      (o2.status = OrderStatus.pending ∨ o2.status = OrderStatus.confirmed ∨
        o2.status = OrderStatus.processing)) ∧
    (cancelOrderRoute o catalog).status = 400 ∧
    (cancelOrderRoute o catalog).order = o ∧
    (∀ pid, (cancelOrderRoute o catalog).catalog pid = catalog pid) := by
  have hfalse : o.canBeCancelled = false := by
    rcases h with h | h | h | h <;> simp [Order.canBeCancelled, h]
  refine ⟨?_, ?_, ?_, ?_⟩
  · intro o2
    cases h2 : o2.status <;> simp [Order.canBeCancelled, h2]
  · simp [cancelOrderRoute, hfalse]
  · simp [cancelOrderRoute, hfalse]
  · intro pid; simp [cancelOrderRoute, hfalse]

/-- Claim C4 witness: a shipped order is refused cancellation with a
400 and is returned unchanged. -/
theorem canBeCancelled_iff_and_cancel_guard_witness :
    w4order.status = OrderStatus.shipped ∧
    (cancelOrderRoute w4order w4catalog).status = 400 ∧
    (cancelOrderRoute w4order w4catalog).order = w4order := by
  have h := canBeCancelled_iff_and_cancel_guard w4order w4catalog (Or.inl (by decide))
  exact ⟨by decide, h.2.1, h.2.2.1⟩

/-- Claim C5: a successful checkout decrements each tracked product by
the total quantity the cart requested of it, and leaves untracked
products untouched; products outside the cart have zero requested
quantity and are therefore unchanged. -/
theorem checkout_decrements_tracked_stock (cart : Cart) (catalog : Catalog) (m : Option String)
    (h : (checkout (some cart) catalog m).status = 201) :
    ∀ pid p, catalog pid = some p →
      (p.inventory.trackQuantity = true →
        (checkout (some cart) catalog m).catalog pid
          = some { p with inventory :=
              { p.inventory with
                quantity := p.inventory.quantity - cartQty pid cart.items } }) ∧
      (p.inventory.trackQuantity = false →
        (checkout (some cart) catalog m).catalog pid = some p) := by
  obtain ⟨ois, hb, heq⟩ := checkout_success_inv cart catalog m h
  rw [heq]
  intro pid p hp
  constructor
  · intro ht
    show (cart.items.foldl decrementStock catalog) pid = _
    rw [foldl_decrementStock, hp]
    simp [adjustTracked, ht, sub_eq_add_neg]
  · intro ht
    show (cart.items.foldl decrementStock catalog) pid = some p
    rw [foldl_decrementStock, hp]
    simp [adjustTracked, ht]

/-- Claim C5 witness: buying three units of a tracked product holding
ten leaves seven, matching the decrement formula. -/
theorem checkout_decrements_tracked_stock_witness :
    (checkout (some w5cart) w5catalog none).status = 201 ∧
    w5catalog 1 = some w5product ∧
    w5product.inventory.trackQuantity = true ∧
    (checkout (some w5cart) w5catalog none).catalog 1
      = some { w5product with inventory :=
          { w5product.inventory with
            quantity := w5product.inventory.quantity - cartQty 1 w5cart.items } } := by
  have h1 : (checkout (some w5cart) w5catalog none).status = 201 := by decide
  exact ⟨h1, by decide, by decide,
    (checkout_decrements_tracked_stock w5cart w5catalog none h1 1 w5product (by decide)).1
      (by decide)⟩

/-- Claim C6: after a successful checkout the cart document still
exists for the same user with an empty item list, no coupon, and its
shipping method intact. -/
theorem checkout_clears_cart (cart : Cart) (catalog : Catalog) (m : Option String)
    (h : (checkout (some cart) catalog m).status = 201) :
    ∃ c1, (checkout (some cart) catalog m).cart = some c1 ∧
      c1.items = [] ∧ c1.coupon = none ∧ c1.user = cart.user ∧
      c1.shippingMethod = cart.shippingMethod := by
  obtain ⟨ois, hb, heq⟩ := checkout_success_inv cart catalog m h
  rw [heq]
  exact ⟨cart.clear, rfl, rfl, rfl, rfl, rfl⟩

/-- Claim C6 witness: a one-item cart carrying a coupon is emptied and
stripped of the coupon by a successful checkout. -/
theorem checkout_clears_cart_witness :
    (checkout (some w6cart) w6catalog none).status = 201 ∧
    ∃ c1, (checkout (some w6cart) w6catalog none).cart = some c1 ∧
      c1.items = [] ∧ c1.coupon = none ∧ c1.user = w6cart.user ∧
      c1.shippingMethod = w6cart.shippingMethod := by
  have h1 : (checkout (some w6cart) w6catalog none).status = 201 := by decide
  exact ⟨h1, checkout_clears_cart w6cart w6catalog none h1⟩

/-- Claim C7 counterexample: the status validator of the status-update
route enumerates exactly seven distinct values, not nine. -/
theorem status_validator_has_seven_values :
    orderStatusValues
      = ["pending", "confirmed", "processing", "shipped", "delivered", "cancelled",
        "returned"] ∧
    orderStatusValues.length = 7 ∧ orderStatusValues.Nodup := by
  exact ⟨rfl, rfl, by decide⟩

/-- Claim C7 as amended: the status-update route accepts newStatus
exactly when it is one of the seven enumerated values pending,
confirmed, processing, shipped, delivered, cancelled, returned,
rejects any other value with a 400 validation error leaving the order
unchanged, and for an accepted value sets it via updateStatus
regardless of the current status. -/
theorem updateStatus_accepts_exactly_enumerated (o : Order) (s : String) :
    ((updateStatusRoute o s).status = 200 ↔ s ∈ orderStatusValues) ∧
    (s ∉ orderStatusValues → updateStatusRoute o s = { status := 400, order := o }) ∧
    (∀ st, parseStatus s = some st →
      updateStatusRoute o s = { status := 200, order := o.updateStatus st }) := by
  refine ⟨?_, ?_, ?_⟩
  · by_cases hm : s ∈ orderStatusValues <;> simp [updateStatusRoute, hm]
  · intro hm; simp [updateStatusRoute, hm]
  · intro st hs
    have hm : s ∈ orderStatusValues := mem_of_parseStatus s st hs
    simp [updateStatusRoute, hm, hs]

/-- Claim C7 witness: a pending order accepts the shipped status and
rejects an unknown one. -/
theorem updateStatus_accepts_exactly_enumerated_witness :
    ((updateStatusRoute w7order "shipped").status = 200 ↔ "shipped" ∈ orderStatusValues) ∧
    ("monitored" ∉ orderStatusValues →
      updateStatusRoute w7order "monitored" = { status := 400, order := w7order }) ∧
    (parseStatus "shipped" = some OrderStatus.shipped →
      updateStatusRoute w7order "shipped"
        = { status := 200, order := w7order.updateStatus OrderStatus.shipped }) :=
  ⟨(updateStatus_accepts_exactly_enumerated w7order "shipped").1,
    (updateStatus_accepts_exactly_enumerated w7order "monitored").2.1,
    (updateStatus_accepts_exactly_enumerated w7order "shipped").2.2 OrderStatus.shipped⟩

/-- Claim C8 counterexample: the cart count route answers a missing
cart with a 200 response carrying count zero, not with the 404 the
claim prescribes. -/
theorem cart_count_missing_cart_returns_200 :
    (countRoute none).status = 200 ∧ (countRoute none).count = 0 ∧
    (countRoute none).status ≠ 404 := by
  exact ⟨rfl, rfl, by decide⟩

/-- Claim C8 as amended: adding a missing product fails 404, adding an
inactive product fails 400, and update quantity, remove item, clear,
apply coupon, remove coupon, set shipping and validate stock all fail
404 on a missing cart, while get count answers 200 with count zero. -/
theorem cart_routes_error_handling (catalog : Catalog) (userId pid1 pid2 quantity : Nat)
    (variant : Option Variant) (p : Product) (cartDoc : Option Cart) (code : String)
    (d : ℚ) (t : CouponType) (sm : ShippingMethod)
    (h1 : catalog pid1 = none)
    (h2 : catalog pid2 = some p)
    (h3 : p.status ≠ ProductStatus.active) :
    (addItemRoute catalog cartDoc userId pid1 quantity variant).status = 404 ∧
    (addItemRoute catalog cartDoc userId pid2 quantity variant).status = 400 ∧
    (updateQuantityRoute none pid1 quantity variant).status = 404 ∧
    (removeItemRoute none pid1 variant).status = 404 ∧
    (clearCartRoute none).status = 404 ∧
    (applyCouponRoute none code d t).status = 404 ∧
    (removeCouponRoute none).status = 404 ∧
    (updateShippingRoute none sm).status = 404 ∧
    (validateStockRoute none catalog).status = 404 ∧
    (countRoute none).status = 200 ∧ (countRoute none).count = 0 := by
  refine ⟨?_, ?_, rfl, rfl, rfl, rfl, rfl, rfl, rfl, rfl, rfl⟩
  · simp [addItemRoute, h1]
  · simp [addItemRoute, h2, h3]

/-- Claim C8 witness: a catalog with product id 1 missing and product
id 2 a draft product exercises every conjunct. -/
theorem cart_routes_error_handling_witness :
    (addItemRoute w8catalog (some (Cart.mkEmpty 1)) 1 1 1 none).status = 404 ∧
    (addItemRoute w8catalog (some (Cart.mkEmpty 1)) 1 2 1 none).status = 400 ∧
    (updateQuantityRoute none 1 1 none).status = 404 ∧
    (removeItemRoute none 1 none).status = 404 ∧
    (clearCartRoute none).status = 404 ∧
    (applyCouponRoute none "CODE" 5 CouponType.fixed).status = 404 ∧
    (removeCouponRoute none).status = 404 ∧
    (updateShippingRoute none ShippingMethod.standard).status = 404 ∧
    (validateStockRoute none w8catalog).status = 404 ∧
    (countRoute none).status = 200 ∧ (countRoute none).count = 0 :=
  cart_routes_error_handling w8catalog 1 1 2 1 none w8product (some (Cart.mkEmpty 1))
    "CODE" 5 CouponType.fixed ShippingMethod.standard (by decide) (by decide) (by decide)

/-- Claim C9: moving a wishlisted product to the cart removes it from
the wishlist and appends a cart item carrying the requested quantity,
defaulting to 1, and the original wishlist variant when the request
supplies none; a product not in the wishlist yields a 404 with both
documents unchanged. -/
theorem move_to_cart_spec (w w2 : Wishlist) (c : Cart) (userId productId productId2 : Nat)
    (q : Option Nat) (item : WishlistItem)
    (hfind : w.items.find? (fun i => i.product = productId) = some item)
    (hnomatch : ∀ i ∈ c.items, ¬(i.product = productId ∧ i.variant = item.variant))
    (hmiss : w2.items.find? (fun i => i.product = productId2) = none) :
    (∃ w1 c1,
      moveToCartRoute (some w) (some c) userId productId q none
        = { status := 200, wishlist := some w1, cart := some c1 } ∧
      (∀ i ∈ w1.items, ¬ i.product = productId) ∧
      c1.items = c.items ++
        [{ product := productId, quantity := q.getD 1, variant := item.variant }]) ∧
    moveToCartRoute (some w2) (some c) userId productId2 q none
      = { status := 404, wishlist := some w2, cart := some c } := by
  constructor
  · refine ⟨{ w with items := w.items.filter (fun i => ¬ i.product = productId) },
      c.addItem productId (q.getD 1) item.variant, ?_, ?_, ?_⟩
    · simp [moveToCartRoute, Wishlist.moveToCart, hfind]
    · intro i hi
      simp [List.mem_filter] at hi
      exact hi.2
    · show Cart.addItemAux productId (q.getD 1) item.variant c.items = _
      exact addItemAux_of_no_match productId (q.getD 1) item.variant c.items hnomatch
  · simp [moveToCartRoute, Wishlist.moveToCart, hmiss]

/-- Claim C9 witness: a wishlist holding product 5 with a variant moves
it into a cart that lacked it, and an empty wishlist yields 404. -/
theorem move_to_cart_spec_witness :
    (∃ w1 c1,
      moveToCartRoute (some w9wishlist) (some w9cart) 9 5 none none
        = { status := 200, wishlist := some w1, cart := some c1 } ∧
      (∀ i ∈ w1.items, ¬ i.product = 5) ∧
      c1.items = w9cart.items ++
        [{ product := 5, quantity := 1, variant := w9item.variant }]) ∧
    moveToCartRoute (some w9wishlist2) (some w9cart) 9 9 none none
      = { status := 404, wishlist := some w9wishlist2, cart := some w9cart } :=
  move_to_cart_spec w9wishlist w9wishlist2 w9cart 9 5 9 none w9item
    (by decide) (by decide) (by decide)

/-- Claim C10: every order item of a successful checkout carries the
product price captured at purchase time and a line total equal to
price plus variant adjustment, taken as zero when absent, times the
quantity; the subtotal is the sum of line totals; and stripping the
coupon from the cart changes neither the items nor the subtotal. -/
theorem order_line_totals_and_subtotal (cart : Cart) (catalog : Catalog) (m : Option String)
    (h : (checkout (some cart) catalog m).status = 201) :
    ∃ o, (checkout (some cart) catalog m).order = some o ∧
      List.Forall₂ (fun (ci : CartItem) (oi : OrderItem) =>
        ∃ p, catalog ci.product = some p ∧ oi.product = ci.product ∧
          oi.quantity = ci.quantity ∧ oi.variant = ci.variant ∧
          oi.price = p.price ∧
          oi.totalPrice = (p.price + (ci.variant.bind Variant.priceAdjustment).getD 0)
            * ci.quantity) cart.items o.items ∧
      o.subtotal = checkoutSubtotal o.items ∧
      (checkout (some { cart with coupon := none }) catalog m).order.map
          (fun o2 => (o2.items, o2.subtotal))
        = some (o.items, o.subtotal) := by
  obtain ⟨ois, hb, heq⟩ := checkout_success_inv cart catalog m h
  have he : cart.items ≠ [] := by
    intro he2; simp [checkout, he2] at h
  have hv : (cart.validateStock catalog).isValid ≠ false := by
    intro hv2
    by_cases he2 : cart.items = []
    · simp [checkout, he2] at h
    · simp [checkout, he2, hv2] at h
  rw [heq]
  refine ⟨checkoutOrder cart m ois, rfl, ?_, rfl, ?_⟩
  · exact buildOrderItems_rel catalog cart.items ois hb
  · have he2 : ({ cart with coupon := none } : Cart).items ≠ [] := he
    have hv2 : (Cart.validateStock { cart with coupon := none } catalog).isValid ≠ false := hv
    have hb2 : buildOrderItems catalog ({ cart with coupon := none } : Cart).items
        = some ois := hb
    rw [checkout_eq_success { cart with coupon := none } catalog m ois he2 hv2 hb2]
    simp [successCheckout, checkoutOrder]

/-- Claim C10 witness: a checkout of two units with a 2.50 variant
adjustment satisfies the line-total relation and the subtotal sum. -/
theorem order_line_totals_and_subtotal_witness :
    (checkout (some w10cart) w10catalog none).status = 201 ∧
    ∃ o, (checkout (some w10cart) w10catalog none).order = some o ∧
      o.subtotal = checkoutSubtotal o.items := by
  have h1 : (checkout (some w10cart) w10catalog none).status = 201 := by decide
  obtain ⟨o, ho, _, hsub, _⟩ := order_line_totals_and_subtotal w10cart w10catalog none h1
  exact ⟨h1, o, ho, hsub⟩
